import Mathlib

/-!
Verification development for the NanoLink repository.

The embedding covers the two source files the claims are about:
- `src/sdk/python/nanolink/metrics.py` — the typed metrics model and the
  normalizer `Metrics.from_dict`;
- `src/demo/python-fastapi/main.py` — the `MetricsService` registry/cache
  and its aggregation and alert logic.

Python numbers are modelled exactly: fields annotated `int` become `ℤ`,
fields annotated `float` become `ℚ` (exact rational arithmetic; Python's
binary floats are approximations of these values, and none of the claims
depends on rounding). `datetime` values are modelled as abstract `ℕ`
timestamps. Raw wire records (`dict` arguments) are modelled by the
JSON-like type `JVal` below.
-/

/-- Model of a loosely-typed Python value as it arrives in a raw snapshot
record: `None`, booleans, numbers, strings, lists and string-keyed dicts. -/
inductive JVal : Type where
  | null : JVal
  | bool (b : Bool) : JVal
  | num (q : ℚ) : JVal
  | str (s : String) : JVal
  | arr (xs : List JVal) : JVal
  | obj (fields : List (String × JVal)) : JVal

/-- Python dict key lookup (`k in d` / `d[k]` / `d.get(k)`): first entry with
the given key. A Python dict cannot hold duplicate keys; on lists with
duplicates this takes the first, which is the shadowing convention used
throughout. -/
def jlookup (fields : List (String × JVal)) (k : String) : Option JVal :=
  (fields.find? (fun p => p.1 = k)).map (fun p => p.2)

/-- Python truthiness (`if data[k]:`) of a raw value: `None`, `False`, zero,
and empty strings/lists/dicts are falsy, everything else truthy. -/
def pyTruthy : JVal → Bool
  | .null => false
  | .bool b => b
  | .num q => q ≠ 0
  | .str s => s ≠ ""
  | .arr xs => !xs.isEmpty
  | .obj fs => !fs.isEmpty

/-- `d.get(k, default)` read into a `float`-annotated field. Python stores the
raw value without checking its kind; the claims only inspect well-kinded
leaves, so the embedding reads a number when one is present and substitutes
the default otherwise. -/
def getNumD (o : List (String × JVal)) (k : String) (d : ℚ) : ℚ :=
  match jlookup o k with
  | some (.num q) => q
  | _ => d

/-- `d.get(k, default)` read into an `int`-annotated field (Python ints are
arbitrary precision, hence `ℤ`); a non-integral or non-numeric wire value
falls back to the default. -/
def getIntD (o : List (String × JVal)) (k : String) (d : ℤ) : ℤ :=
  match jlookup o k with
  | some (.num q) => if q.den = 1 then q.num else d
  | _ => d

/-- `d.get(k, default)` read into a `str`-annotated field. -/
def getStrD (o : List (String × JVal)) (k : String) (d : String) : String :=
  match jlookup o k with
  | some (.str s) => s
  | _ => d

/-- `d.get(k, default)` read into a `bool`-annotated field. -/
def getBoolD (o : List (String × JVal)) (k : String) (d : Bool) : Bool :=
  match jlookup o k with
  | some (.bool b) => b
  | _ => d

/-- `d.get(k)` (no default) read into an `Optional[float]` field: `None`
when the key is absent. -/
def getNumOpt (o : List (String × JVal)) (k : String) : Option ℚ :=
  match jlookup o k with
  | some (.num q) => some q
  | _ => none

/-- `d.get(k, [])` read into a `List[float]` field; numeric elements of a
present list are kept. -/
def getNumListD (o : List (String × JVal)) (k : String) : List ℚ :=
  match jlookup o k with
  | some (.arr xs) => xs.filterMap (fun v => match v with | .num q => some q | _ => none)
  | _ => []

/-- `d.get(k, [])` read into a `List[str]` field. -/
def getStrListD (o : List (String × JVal)) (k : String) : List String :=
  match jlookup o k with
  | some (.arr xs) => xs.filterMap (fun v => match v with | .str s => some s | _ => none)
  | _ => []

/-! The dataclasses of `metrics.py`, with their declared defaults. -/

/-- `CpuMetrics` dataclass (metrics.py lines 9-20). -/
structure CpuMetrics where
  usage_percent : ℚ := 0
  core_count : ℤ := 0
  per_core_usage : List ℚ := []
  model : String := ""
  vendor : String := ""
  frequency_mhz : ℚ := 0
  max_frequency_mhz : ℚ := 0
  temperature_celsius : Option ℚ := none
  architecture : String := ""
deriving Repr, DecidableEq

/-- `MemoryMetrics` dataclass (metrics.py lines 23-34), stored fields only;
the computed percentage properties are separate functions below. -/
structure MemoryMetrics where
  total : ℤ := 0
  used : ℤ := 0
  available : ℤ := 0
  swap_total : ℤ := 0
  swap_used : ℤ := 0
  cached : ℤ := 0
  buffers : ℤ := 0
  memory_type : String := ""
  speed_mhz : ℤ := 0
deriving Repr, DecidableEq

/-- `memory.usage_percent` property (metrics.py lines 36-41): 0.0 when
`total` is 0, else `used / total * 100`. -/
def MemoryMetrics.usage_percent (m : MemoryMetrics) : ℚ :=
  if m.total = 0 then 0 else (m.used : ℚ) / (m.total : ℚ) * 100

/-- `memory.swap_usage_percent` property (metrics.py lines 43-48). -/
def MemoryMetrics.swap_usage_percent (m : MemoryMetrics) : ℚ :=
  if m.swap_total = 0 then 0 else (m.swap_used : ℚ) / (m.swap_total : ℚ) * 100

/-- `DiskMetrics` dataclass (metrics.py lines 51-68), stored fields only. -/
structure DiskMetrics where
  mount_point : String := ""
  device : String := ""
  fs_type : String := ""
  total : ℤ := 0
  used : ℤ := 0
  available : ℤ := 0
  read_bytes_per_sec : ℤ := 0
  write_bytes_per_sec : ℤ := 0
  read_iops : ℤ := 0
  write_iops : ℤ := 0
  model : String := ""
  serial : String := ""
  disk_type : String := ""
  temperature_celsius : Option ℚ := none
  health_status : String := ""
deriving Repr, DecidableEq

/-- `disk.usage_percent` property (metrics.py lines 70-75). -/
def DiskMetrics.usage_percent (d : DiskMetrics) : ℚ :=
  if d.total = 0 then 0 else (d.used : ℚ) / (d.total : ℚ) * 100

/-- `NetworkMetrics` dataclass (metrics.py lines 78-90). -/
structure NetworkMetrics where
  interface : String := ""
  rx_bytes_per_sec : ℤ := 0
  tx_bytes_per_sec : ℤ := 0
  rx_packets_per_sec : ℤ := 0
  tx_packets_per_sec : ℤ := 0
  is_up : Bool := false
  mac_address : String := ""
  ip_addresses : List String := []
  link_speed_mbps : ℤ := 0
  interface_type : String := ""
deriving Repr, DecidableEq

/-- `GpuMetrics` dataclass (metrics.py lines 93-112), stored fields only. -/
structure GpuMetrics where
  index : ℤ := 0
  name : String := ""
  vendor : String := ""
  usage_percent : ℚ := 0
  memory_total : ℤ := 0
  memory_used : ℤ := 0
  temperature_celsius : ℚ := 0
  fan_speed_percent : ℚ := 0
  power_draw_watts : ℚ := 0
  power_limit_watts : ℚ := 0
  clock_core_mhz : ℤ := 0
  clock_memory_mhz : ℤ := 0
  driver_version : String := ""
  pcie_gen : ℤ := 0
  pcie_width : ℤ := 0
  encoder_usage_percent : ℚ := 0
  decoder_usage_percent : ℚ := 0
deriving Repr, DecidableEq

/-- `gpu.memory_usage_percent` property (metrics.py lines 114-119). -/
def GpuMetrics.memory_usage_percent (g : GpuMetrics) : ℚ :=
  if g.memory_total = 0 then 0 else (g.memory_used : ℚ) / (g.memory_total : ℚ) * 100

/-- `SystemInfo` dataclass (metrics.py lines 122-133). -/
structure SystemInfo where
  os_name : String := ""
  os_version : String := ""
  kernel_version : String := ""
  hostname : String := ""
  boot_time : ℤ := 0
  uptime_seconds : ℤ := 0
  motherboard_model : String := ""
  motherboard_vendor : String := ""
  bios_version : String := ""
deriving Repr, DecidableEq

/-- `Metrics` dataclass (metrics.py lines 136-147): one complete snapshot,
with every section optional-by-absence (`Optional[...] = None`) and list
sections defaulting to empty. -/
structure Metrics where
  timestamp : ℤ := 0
  hostname : String := ""
  cpu : Option CpuMetrics := none
  memory : Option MemoryMetrics := none
  disks : List DiskMetrics := []
  networks : List NetworkMetrics := []
  gpus : List GpuMetrics := []
  system : Option SystemInfo := none
  load_average : List ℚ := []
deriving Repr, DecidableEq

/-! Normalization: `Metrics.from_dict` (metrics.py lines 149-257). The
Python code can raise — `.get` on a section value that is truthy but not a
dict raises `AttributeError`, and `for ... in` over a non-iterable raises
`TypeError` — so the embedding returns `Except String Metrics`, with
`.error` at exactly the raising points. -/

/-- Reading an optional section (`if k in data and data[k]: data[k].get(...)`):
absent or falsy gives no section; a truthy dict gives its fields; a truthy
non-dict raises (`.get` on it would raise `AttributeError`). -/
def getSection (data : List (String × JVal)) (k : String) :
    Except String (Option (List (String × JVal))) :=
  match jlookup data k with
  | none => .ok none
  | some v =>
    if pyTruthy v then
      match v with
      | .obj fs => .ok (some fs)
      | _ => .error "AttributeError"
    else
      .ok none

/-- Iterating a list section (`if k in data: for e in data[k]:`): an absent
key skips the loop (empty); a list yields its elements; a string yields its
characters; a dict yields its keys; other values raise `TypeError`. -/
def getElems (data : List (String × JVal)) (k : String) :
    Except String (List JVal) :=
  match jlookup data k with
  | none => .ok []
  | some (.arr xs) => .ok xs
  | some (.str s) => .ok (s.toList.map (fun c => .str (String.mk [c])))
  | some (.obj fs) => .ok (fs.map (fun p => .str p.1))
  | some _ => .error "TypeError"

/-- A list element must be a dict for `element.get(...)` to succeed;
anything else raises `AttributeError`. -/
def elemObj : JVal → Except String (List (String × JVal))
  | .obj fs => .ok fs
  | _ => .error "AttributeError"

/-- CPU section construction (metrics.py lines 156-168). -/
def normalizeCpu (o : List (String × JVal)) : CpuMetrics :=
  { usage_percent := getNumD o "usagePercent" 0
    core_count := getIntD o "coreCount" 0
    per_core_usage := getNumListD o "perCoreUsage"
    model := getStrD o "model" ""
    vendor := getStrD o "vendor" ""
    frequency_mhz := getNumD o "frequencyMhz" 0
    max_frequency_mhz := getNumD o "maxFrequencyMhz" 0
    temperature_celsius := getNumOpt o "temperatureCelsius"
    architecture := getStrD o "architecture" "" }

/-- Memory section construction (metrics.py lines 170-182). -/
def normalizeMemory (o : List (String × JVal)) : MemoryMetrics :=
  { total := getIntD o "total" 0
    used := getIntD o "used" 0
    available := getIntD o "available" 0
    swap_total := getIntD o "swapTotal" 0
    swap_used := getIntD o "swapUsed" 0
    cached := getIntD o "cached" 0
    buffers := getIntD o "buffers" 0
    memory_type := getStrD o "memoryType" ""
    speed_mhz := getIntD o "speedMhz" 0 }

/-- Disk element construction (metrics.py lines 184-202). -/
def normalizeDisk (o : List (String × JVal)) : DiskMetrics :=
  { mount_point := getStrD o "mountPoint" ""
    device := getStrD o "device" ""
    fs_type := getStrD o "fsType" ""
    total := getIntD o "total" 0
    used := getIntD o "used" 0
    available := getIntD o "available" 0
    read_bytes_per_sec := getIntD o "readBytesPerSec" 0
    write_bytes_per_sec := getIntD o "writeBytesPerSec" 0
    read_iops := getIntD o "readIops" 0
    write_iops := getIntD o "writeIops" 0
    model := getStrD o "model" ""
    serial := getStrD o "serial" ""
    disk_type := getStrD o "diskType" ""
    temperature_celsius := getNumOpt o "temperatureCelsius"
    health_status := getStrD o "healthStatus" "" }

/-- Network element construction (metrics.py lines 204-217). -/
def normalizeNetwork (o : List (String × JVal)) : NetworkMetrics :=
  { interface := getStrD o "interface" ""
    rx_bytes_per_sec := getIntD o "rxBytesPerSec" 0
    tx_bytes_per_sec := getIntD o "txBytesPerSec" 0
    rx_packets_per_sec := getIntD o "rxPacketsPerSec" 0
    tx_packets_per_sec := getIntD o "txPacketsPerSec" 0
    is_up := getBoolD o "isUp" false
    mac_address := getStrD o "macAddress" ""
    ip_addresses := getStrListD o "ipAddresses"
    link_speed_mbps := getIntD o "linkSpeedMbps" 0
    interface_type := getStrD o "interfaceType" "" }

/-- GPU element construction (metrics.py lines 219-239). -/
def normalizeGpu (o : List (String × JVal)) : GpuMetrics :=
  { index := getIntD o "index" 0
    name := getStrD o "name" ""
    vendor := getStrD o "vendor" ""
    usage_percent := getNumD o "usagePercent" 0
    memory_total := getIntD o "memoryTotal" 0
    memory_used := getIntD o "memoryUsed" 0
    temperature_celsius := getNumD o "temperatureCelsius" 0
    fan_speed_percent := getNumD o "fanSpeedPercent" 0
    power_draw_watts := getNumD o "powerDrawWatts" 0
    power_limit_watts := getNumD o "powerLimitWatts" 0
    clock_core_mhz := getIntD o "clockCoreMhz" 0
    clock_memory_mhz := getIntD o "clockMemoryMhz" 0
    driver_version := getStrD o "driverVersion" ""
    pcie_gen := getIntD o "pcieGen" 0
    pcie_width := getIntD o "pcieWidth" 0
    encoder_usage_percent := getNumD o "encoderUsagePercent" 0
    decoder_usage_percent := getNumD o "decoderUsagePercent" 0 }

/-- System section construction (metrics.py lines 241-253). -/
def normalizeSystem (o : List (String × JVal)) : SystemInfo :=
  { os_name := getStrD o "osName" ""
    os_version := getStrD o "osVersion" ""
    kernel_version := getStrD o "kernelVersion" ""
    hostname := getStrD o "hostname" ""
    boot_time := getIntD o "bootTime" 0
    uptime_seconds := getIntD o "uptimeSeconds" 0
    motherboard_model := getStrD o "motherboardModel" ""
    motherboard_vendor := getStrD o "motherboardVendor" ""
    bios_version := getStrD o "biosVersion" "" }

/-- Normalize one element of a list section: `.get` calls on it require a
dict (metrics.py lines 185-202 and analogues). -/
def normElem {α : Type} (f : List (String × JVal) → α) (v : JVal) :
    Except String α :=
  (elemObj v).map f

/-- `Metrics.from_dict` (metrics.py lines 149-257): scalar fields default on
absence, optional sections are built only when present and truthy, list
sections are iterated when present, `loadAverage` defaults to the empty
list. The sections are evaluated in source order; the first raising
construct aborts the whole call. -/
def Metrics.from_dict (data : List (String × JVal)) : Except String Metrics := do
  let timestamp := getIntD data "timestamp" 0
  let hostname := getStrD data "hostname" ""
  let cpuSec ← getSection data "cpu"
  let memSec ← getSection data "memory"
  let diskElems ← getElems data "disks"
  let disks ← diskElems.mapM (normElem normalizeDisk)
  let netElems ← getElems data "networks"
  let networks ← netElems.mapM (normElem normalizeNetwork)
  let gpuElems ← getElems data "gpus"
  let gpus ← gpuElems.mapM (normElem normalizeGpu)
  let sysSec ← getSection data "system"
  let load_average := getNumListD data "loadAverage"
  .ok
    { timestamp := timestamp
      hostname := hostname
      cpu := cpuSec.map normalizeCpu
      memory := memSec.map normalizeMemory
      disks := disks
      networks := networks
      gpus := gpus
      system := sysSec.map normalizeSystem
      load_average := load_average }

/-! The demo service (`main.py`). `MetricsService` holds two Python dicts;
a Python dict is modelled as an insertion-ordered association list: adding
a fresh key appends, writing an existing key updates in place (preserving
its position, as CPython does), and iteration order is list order. -/

/-- Python dict `d.get(k)` / `d[k]` lookup. -/
def dlookup {α : Type} (l : List (String × α)) (k : String) : Option α :=
  (l.find? (fun p => p.1 = k)).map (fun p => p.2)

/-- Python dict `d[k] = v`: in-place update of an existing key, else append. -/
def dinsert {α : Type} (l : List (String × α)) (k : String) (v : α) :
    List (String × α) :=
  if l.any (fun p => p.1 = k) then
    l.map (fun p => if p.1 = k then (k, v) else p)
  else
    l ++ [(k, v)]

/-- Python dict `d.pop(k, None)`: remove the key if present. -/
def derase {α : Type} (l : List (String × α)) (k : String) :
    List (String × α) :=
  l.filter (fun p => p.1 ≠ k)

/-- `AgentInfo` pydantic model (main.py lines 37-43); `connected_at` is an
abstract timestamp. -/
structure AgentInfo where
  agent_id : String
  hostname : String
  os : String
  arch : String
  version : String
  connected_at : ℕ
deriving Repr, DecidableEq

/-- `AgentMetrics` pydantic model (main.py lines 46-52): the cached per-agent
projection. -/
structure AgentMetrics where
  hostname : String
  cpu_usage : ℚ
  memory_usage : ℚ
  memory_total : ℤ
  memory_used : ℤ
  timestamp : ℕ
deriving Repr, DecidableEq

/-- The kind of threshold breached by an alert. -/
inductive MetricKind where
  | cpu : MetricKind
  | memory : MetricKind
deriving Repr, DecidableEq

/-- One alert event, carrying the data the warning log lines of
`process_metrics` emit (main.py lines 137-144): hostname, metric kind and
the breaching value. -/
structure Alert where
  hostname : String
  kind : MetricKind
  value : ℚ
deriving Repr, DecidableEq

/-- `MetricsService` state (main.py lines 89-91): the agent registry and the
latest-metrics cache, both keyed by agent id. -/
structure MetricsService where
  agents : List (String × AgentInfo)
  latest_metrics : List (String × AgentMetrics)
deriving Repr, DecidableEq

/-- The state of a freshly constructed `MetricsService`: both dicts empty. -/
def emptyService : MetricsService := { agents := [], latest_metrics := [] }

/-- `MetricsService.register_agent` (main.py lines 93-104): unconditionally
writes the `AgentInfo` under its agent id. The method has no duplicate
check and raises nothing; a second registration of the same id silently
overwrites the stored entry. -/
def MetricsService.register_agent (s : MetricsService) (info : AgentInfo) :
    MetricsService :=
  { s with agents := dinsert s.agents info.agent_id info }

/-- `MetricsService.unregister_agent` (main.py lines 106-110): pops the agent
id from both the registry and the cache. -/
def MetricsService.unregister_agent (s : MetricsService) (agent_id : String) :
    MetricsService :=
  { agents := derase s.agents agent_id
    latest_metrics := derase s.latest_metrics agent_id }

/-- The hostname scan of `process_metrics` (main.py lines 114-119):
`agent_id` starts as the snapshot hostname and becomes the id of the FIRST
registered agent (in dict iteration order) whose hostname matches, the
loop breaking at the first hit. -/
def resolveId (agents : List (String × AgentInfo)) (h : String) : String :=
  match agents.find? (fun p => p.2.hostname = h) with
  | some p => p.1
  | none => h

/-- The `AgentMetrics` record built by `process_metrics` (main.py lines
121-133): memory usage recomputed from the snapshot (0.0 when memory is
absent or its total is not positive), CPU usage taken from the CPU section
or 0.0, totals defaulting to 0 when memory is absent. -/
def cacheEntry (m : Metrics) (now : ℕ) : AgentMetrics :=
  { hostname := m.hostname
    cpu_usage := match m.cpu with | some c => c.usage_percent | none => 0
    memory_usage :=
      match m.memory with
      | some mem => if mem.total > 0 then (mem.used : ℚ) / (mem.total : ℚ) * 100 else 0
      | none => 0
    memory_total := match m.memory with | some mem => mem.total | none => 0
    memory_used := match m.memory with | some mem => mem.used | none => 0
    timestamp := now }

/-- The alert check of `process_metrics` (main.py lines 136-144): a stateless
function of the freshly built entry; one warning when `cpu_usage > 90`,
one when `memory_usage > 90`. -/
def evalAlerts (e : AgentMetrics) : List Alert :=
  (if e.cpu_usage > 90 then [{ hostname := e.hostname, kind := .cpu, value := e.cpu_usage }] else [])
    ++ (if e.memory_usage > 90 then [{ hostname := e.hostname, kind := .memory, value := e.memory_usage }] else [])

/-- `MetricsService.process_metrics` (main.py lines 112-144): resolves the
key via the hostname scan, writes the rebuilt entry into the cache under
that key unconditionally, and returns the emitted alerts. -/
def MetricsService.process_metrics (s : MetricsService) (m : Metrics)
    (now : ℕ) : MetricsService × List Alert :=
  let agent_id := resolveId s.agents m.hostname
  let e := cacheEntry m now
  ({ s with latest_metrics := dinsert s.latest_metrics agent_id e },
    evalAlerts e)

/-- `MetricsService.get_metrics` (main.py lines 150-152). -/
def MetricsService.get_metrics (s : MetricsService) (agent_id : String) :
    Option AgentMetrics :=
  dlookup s.latest_metrics agent_id

/-- `MetricsService.get_average_cpu` (main.py lines 158-162): 0.0 on an empty
cache, else the arithmetic mean of `cpu_usage` over the cached entries. -/
def MetricsService.get_average_cpu (s : MetricsService) : ℚ :=
  if s.latest_metrics.isEmpty then 0
  else (s.latest_metrics.map (fun p => p.2.cpu_usage)).sum / s.latest_metrics.length

/-- `MetricsService.get_average_memory` (main.py lines 164-168). -/
def MetricsService.get_average_memory (s : MetricsService) : ℚ :=
  if s.latest_metrics.isEmpty then 0
  else (s.latest_metrics.map (fun p => p.2.memory_usage)).sum / s.latest_metrics.length

/-- `ClusterSummary` pydantic model (main.py lines 73-76). -/
structure ClusterSummary where
  agent_count : ℕ
  avg_cpu_usage : ℚ
  avg_memory_usage : ℚ
deriving Repr, DecidableEq

/-- The `/api/summary` route `get_summary` (main.py lines 255-262):
`agent_count` is the length of `get_agents()`, i.e. the size of the
registry, and the averages come from the cache. -/
def get_summary (s : MetricsService) : ClusterSummary :=
  { agent_count := s.agents.length
    avg_cpu_usage := s.get_average_cpu
    avg_memory_usage := s.get_average_memory }

/-- One externally triggered operation on the service: an agent connect
(`register_agent`), an agent disconnect (`unregister_agent`), or an
incoming snapshot (`process_metrics`). -/
inductive Op where
  | register (info : AgentInfo) : Op
  | unregister (agent_id : String) : Op
  | update (m : Metrics) (now : ℕ) : Op
deriving Repr

/-- Apply one operation to the service state. -/
def applyOp (s : MetricsService) (op : Op) : MetricsService :=
  match op with
  | .register info => s.register_agent info
  | .unregister agent_id => s.unregister_agent agent_id
  | .update m now => (s.process_metrics m now).1

/-- Run a sequence of operations from the empty service. -/
def runOps (ops : List Op) : MetricsService :=
  ops.foldl applyOp emptyService

/-! Lemmas about the dict model. -/

theorem dlookup_cons {α : Type} (x : String × α) (l : List (String × α))
    (k : String) :
    dlookup (x :: l) k = if x.1 = k then some x.2 else dlookup l k := by
  simp only [dlookup, List.find?_cons]
  by_cases h : x.1 = k
  · simp [h]
  · simp [h]

theorem derase_cons {α : Type} (x : String × α) (l : List (String × α))
    (k : String) :
    derase (x :: l) k = if x.1 = k then derase l k else x :: derase l k := by
  simp only [derase, List.filter_cons]
  by_cases h : x.1 = k
  · simp [h]
  · simp [h]

theorem dlookup_append_fresh {α : Type} (l : List (String × α)) (k : String)
    (v : α) (h : l.any (fun p => p.1 = k) = false) :
    dlookup (l ++ [(k, v)]) k = some v := by
  induction l with
  | nil => simp [dlookup_cons, dlookup]
  | cons x l ih =>
    simp only [List.any_cons, Bool.or_eq_false_iff, decide_eq_false_iff_not] at h
    rw [List.cons_append, dlookup_cons, if_neg h.1]
    exact ih (by simpa using h.2)

theorem dlookup_append_ne {α : Type} (l : List (String × α)) (k k' : String)
    (v : α) (h : k' ≠ k) :
    dlookup (l ++ [(k, v)]) k' = dlookup l k' := by
  induction l with
  | nil =>
    rw [List.nil_append, dlookup_cons, if_neg (fun hk => h hk.symm)]
  | cons x l ih =>
    rw [List.cons_append, dlookup_cons, dlookup_cons]
    by_cases hx : x.1 = k'
    · simp [hx]
    · simp [hx, ih]

theorem dlookup_mapUpd_self {α : Type} (l : List (String × α)) (k : String)
    (v : α) (h : l.any (fun p => p.1 = k) = true) :
    dlookup (l.map (fun p => if p.1 = k then (k, v) else p)) k = some v := by
  induction l with
  | nil => simp at h
  | cons x l ih =>
    rw [List.map_cons]
    by_cases hx : x.1 = k
    · simp [dlookup_cons, hx]
    · simp only [List.any_cons, decide_eq_true_eq, Bool.or_eq_true] at h
      rcases h with h | h
      · exact absurd h hx
      · simp only [if_neg hx]
        rw [dlookup_cons, if_neg hx]
        exact ih h

theorem dlookup_mapUpd_ne {α : Type} (l : List (String × α)) (k k' : String)
    (v : α) (h : k' ≠ k) :
    dlookup (l.map (fun p => if p.1 = k then (k, v) else p)) k' = dlookup l k' := by
  induction l with
  | nil => rfl
  | cons x l ih =>
    rw [List.map_cons, dlookup_cons]
    by_cases hx : x.1 = k
    · simp only [if_pos hx]
      have hk : ¬((k, v).1 = k') := fun hk => h hk.symm
      rw [dlookup_cons, if_neg hk, if_neg (hx ▸ (fun hx' => h (hx ▸ hx'.symm)) : ¬x.1 = k'), ih]
    · simp only [if_neg hx]
      rw [dlookup_cons]
      by_cases hx' : x.1 = k'
      · simp [hx']
      · simp [hx', ih]

theorem dlookup_dinsert_self {α : Type} (l : List (String × α)) (k : String)
    (v : α) : dlookup (dinsert l k v) k = some v := by
  unfold dinsert
  by_cases h : l.any (fun p => p.1 = k) = true
  · rw [if_pos h]; exact dlookup_mapUpd_self l k v h
  · rw [if_neg h]
    exact dlookup_append_fresh l k v (Bool.eq_false_iff.mpr h)

theorem dlookup_dinsert_ne {α : Type} (l : List (String × α)) (k k' : String)
    (v : α) (h : k' ≠ k) : dlookup (dinsert l k v) k' = dlookup l k' := by
  unfold dinsert
  by_cases hany : l.any (fun p => p.1 = k) = true
  · rw [if_pos hany]; exact dlookup_mapUpd_ne l k k' v h
  · rw [if_neg hany]; exact dlookup_append_ne l k k' v h

theorem dlookup_derase_self {α : Type} (l : List (String × α)) (k : String) :
    dlookup (derase l k) k = none := by
  induction l with
  | nil => rfl
  | cons x l ih =>
    rw [derase_cons]
    by_cases hx : x.1 = k
    · simp [hx, ih]
    · rw [if_neg hx, dlookup_cons, if_neg hx]
      exact ih

theorem dlookup_derase_ne {α : Type} (l : List (String × α)) (k k' : String)
    (h : k' ≠ k) : dlookup (derase l k) k' = dlookup l k' := by
  induction l with
  | nil => rfl
  | cons x l ih =>
    rw [derase_cons]
    by_cases hx : x.1 = k
    · rw [if_pos hx, ih, dlookup_cons, if_neg (hx ▸ (fun hx' => h hx'.symm) : ¬x.1 = k')]
    · rw [if_neg hx, dlookup_cons, dlookup_cons]
      by_cases hx' : x.1 = k'
      · simp [hx']
      · simp [hx', ih]

theorem dinsert_key_cases {α : Type} (l : List (String × α)) (k k' : String)
    (v : α) (h : (dlookup (dinsert l k v) k').isSome = true) :
    k' = k ∨ (dlookup l k').isSome = true := by
  by_cases hk : k' = k
  · exact Or.inl hk
  · right; rw [dlookup_dinsert_ne l k k' v hk] at h; exact h

theorem dlookup_isSome_of_find? {α : Type} (l : List (String × α))
    (p : (String × α) → Bool) (x : String × α) (h : l.find? p = some x) :
    (dlookup l x.1).isSome = true := by
  induction l with
  | nil => simp at h
  | cons y l ih =>
    rw [List.find?_cons] at h
    by_cases hy : p y = true
    · simp only [hy, if_true] at h
      cases h
      rw [dlookup_cons, if_pos rfl]
      rfl
    · simp only [Bool.not_eq_true] at hy
      simp only [hy] at h
      have := ih h
      rw [dlookup_cons]
      by_cases hk : y.1 = x.1
      · simp [hk]
      · simp [hk, this]

/-! Trace invariants for the registry/cache pair. -/

/-- Every key cached in `latest_metrics` is also a key of the `agents`
registry. -/
def CacheSub (s : MetricsService) : Prop :=
  ∀ k, (dlookup s.latest_metrics k).isSome = true →
    (dlookup s.agents k).isSome = true

/-- A trace from state `s` is "good" when every snapshot processed along it
has a hostname that matches some agent registered at that point (the
hostname scan of `process_metrics` succeeds). -/
def goodTrace : MetricsService → List Op → Bool
  | _, [] => true
  | s, op :: rest =>
    (match op with
      | .update m _ => (s.agents.find? (fun p => p.2.hostname = m.hostname)).isSome
      | _ => true) && goodTrace (applyOp s op) rest

theorem cacheSub_register (s : MetricsService) (info : AgentInfo)
    (h : CacheSub s) : CacheSub (s.register_agent info) := by
  intro k hk
  simp only [MetricsService.register_agent] at *
  by_cases hkid : k = info.agent_id
  · rw [hkid, dlookup_dinsert_self]; rfl
  · rw [dlookup_dinsert_ne _ _ _ _ hkid]
    exact h k hk

theorem cacheSub_unregister (s : MetricsService) (agent_id : String)
    (h : CacheSub s) : CacheSub (s.unregister_agent agent_id) := by
  intro k hk
  simp only [MetricsService.unregister_agent] at *
  by_cases hkid : k = agent_id
  · rw [hkid, dlookup_derase_self] at hk
    simp at hk
  · rw [dlookup_derase_ne _ _ _ hkid] at hk
    rw [dlookup_derase_ne _ _ _ hkid]
    exact h k hk

theorem cacheSub_update (s : MetricsService) (m : Metrics) (now : ℕ)
    (hmatch : (s.agents.find? (fun p => p.2.hostname = m.hostname)).isSome = true)
    (h : CacheSub s) : CacheSub (s.process_metrics m now).1 := by
  intro k hk
  simp only [MetricsService.process_metrics] at *
  rcases dinsert_key_cases _ _ _ _ hk with hkid | hold
  · subst hkid
    unfold resolveId
    cases hfind : s.agents.find? (fun p => p.2.hostname = m.hostname) with
    | none => rw [hfind] at hmatch; simp at hmatch
    | some p => exact dlookup_isSome_of_find? s.agents _ p hfind
  · exact h k hold

theorem cacheSub_runAux (ops : List Op) :
    ∀ s : MetricsService, CacheSub s → goodTrace s ops = true →
      CacheSub (ops.foldl applyOp s) := by
  induction ops with
  | nil => intro s hs _; exact hs
  | cons op rest ih =>
    intro s hs hg
    rw [List.foldl_cons]
    cases op with
    | register info =>
      simp only [goodTrace, Bool.and_eq_true] at hg
      exact ih _ (cacheSub_register s info hs) hg.2
    | unregister agent_id =>
      simp only [goodTrace, Bool.and_eq_true] at hg
      exact ih _ (cacheSub_unregister s agent_id hs) hg.2
    | update m now =>
      simp only [goodTrace, Bool.and_eq_true] at hg
      exact ih _ (cacheSub_update s m now hg.1 hs) hg.2

/-! Concrete inputs used by the claim theorems below. -/

/-- Agent "A1" self-reporting hostname "web-1". -/
def infoA1 : AgentInfo :=
  { agent_id := "A1", hostname := "web-1", os := "linux", arch := "x86_64",
    version := "1.0", connected_at := 0 }

/-- A later registration reusing agent id "A1" with a different hostname. -/
def infoA1v2 : AgentInfo :=
  { agent_id := "A1", hostname := "web-2", os := "linux", arch := "x86_64",
    version := "1.1", connected_at := 5 }

/-- Agent "A2" also self-reporting hostname "web-1" (hostname collision). -/
def infoA2 : AgentInfo :=
  { agent_id := "A2", hostname := "web-1", os := "linux", arch := "x86_64",
    version := "1.0", connected_at := 1 }

/-- An agent registered under an unrelated hostname. -/
def infoDb : AgentInfo :=
  { agent_id := "A0", hostname := "db-1", os := "linux", arch := "arm64",
    version := "1.0", connected_at := 0 }

/-- A minimal snapshot whose hostname is "web-1" (no sections). -/
def mWeb1 : Metrics := { hostname := "web-1" }

/-- Claim C1, as stated, is false: starting from the empty service, a single
`process_metrics` call whose hostname matches no registered agent inserts a
cache entry keyed by that hostname, so the key "web-1" is present in
`latest_metrics` but absent from `agents`. -/
theorem c1_counterexample :
    (dlookup (runOps [Op.update mWeb1 0]).latest_metrics "web-1").isSome = true ∧
    (dlookup (runOps [Op.update mWeb1 0]).agents "web-1").isSome = false :=
  ⟨rfl, rfl⟩

/-- Claim C1, amended: (1) for every operation sequence from the empty state
in which each processed snapshot's hostname matches some agent registered
at that point, every key of the metrics cache is also a key of the agent
registry; (2) `unregister_agent` always removes both the registry entry and
the cache entry for the identity. (The unamended claim fails because
`process_metrics` for an unmatched hostname inserts a cache entry keyed by
the snapshot hostname itself.) -/
theorem c1_cache_subset_registry :
    (∀ ops : List Op, goodTrace emptyService ops = true →
      CacheSub (runOps ops)) ∧
    (∀ (s : MetricsService) (agent_id : String),
      dlookup (s.unregister_agent agent_id).agents agent_id = none ∧
      dlookup (s.unregister_agent agent_id).latest_metrics agent_id = none) := by
  constructor
  · intro ops hg
    refine cacheSub_runAux ops emptyService ?_ hg
    intro k hk
    simp [emptyService, dlookup] at hk
  · intro s agent_id
    exact ⟨dlookup_derase_self s.agents agent_id,
      dlookup_derase_self s.latest_metrics agent_id⟩

/-- Operation sequence for the C1 witness: register "A1" (hostname "web-1"),
process a snapshot for "web-1", unregister "A1". -/
def c1ops : List Op := [.register infoA1, .update mWeb1 1, .unregister "A1"]

/-- Witness for the amended C1 on a concrete good trace. -/
theorem c1_witness :
    goodTrace emptyService c1ops = true ∧ CacheSub (runOps c1ops) :=
  ⟨rfl, c1_cache_subset_registry.1 c1ops rfl⟩

/-- Claim C2, as stated, is false: with no agent registered, processing a
snapshot with hostname "web-1" is not a no-op — it adds a cache entry under
the key "web-1", and a subsequent get for that key finds it. -/
theorem c2_counterexample :
    (emptyService.process_metrics mWeb1 0).1.get_metrics "web-1" =
      some { hostname := "web-1", cpu_usage := 0, memory_usage := 0,
             memory_total := 0, memory_used := 0, timestamp := 0 } :=
  rfl

/-- Claim C2, amended: when a snapshot's hostname matches no currently
registered agent, `process_metrics` inserts (or overwrites) a cache entry
keyed by the snapshot's hostname itself, and a subsequent get for that
hostname key returns the freshly built entry. -/
theorem c2_unmatched_update_caches_under_hostname :
    ∀ (s : MetricsService) (m : Metrics) (now : ℕ),
      s.agents.find? (fun p => p.2.hostname = m.hostname) = none →
      (s.process_metrics m now).1.get_metrics m.hostname =
        some (cacheEntry m now) := by
  intro s m now hfind
  simp only [MetricsService.process_metrics, MetricsService.get_metrics,
    resolveId, hfind]
  exact dlookup_dinsert_self s.latest_metrics m.hostname (cacheEntry m now)

/-- Witness for the amended C2 at the empty service. -/
theorem c2_witness :
    emptyService.agents.find? (fun p => p.2.hostname = mWeb1.hostname) = none ∧
    (emptyService.process_metrics mWeb1 3).1.get_metrics mWeb1.hostname =
      some (cacheEntry mWeb1 3) :=
  ⟨rfl, c2_unmatched_update_caches_under_hostname emptyService mWeb1 3 rfl⟩

/-- Claim C3, as stated, is false: registering agent id "A1" twice does not
raise and does not leave the first entry in place — the second registration
silently overwrites it (the stored record after the second call is the new
one, which differs from the first). -/
theorem c3_counterexample :
    dlookup ((emptyService.register_agent infoA1).register_agent
      infoA1v2).agents "A1" = some infoA1v2 ∧ infoA1v2 ≠ infoA1 :=
  ⟨rfl, by decide⟩

/-- Claim C3, amended: `register_agent` never fails — there is no duplicate
check and no ConflictError path in the method — and after registering any
info record the registry maps its agent id to that record, silently
overwriting any previous entry for the same id. -/
theorem c3_register_overwrites :
    ∀ (s : MetricsService) (info : AgentInfo),
      dlookup (s.register_agent info).agents info.agent_id = some info := by
  intro s info
  exact dlookup_dinsert_self s.agents info.agent_id info

/-- Claim C4, as stated, is false: after registering "A1" then "A2", both
with hostname "web-1", the hostname scan resolves "web-1" to "A1" (the
first-registered match, because the loop breaks at the first hit in dict
iteration order), not to the most-recently-connected "A2"; processing a
"web-1" snapshot accordingly caches nothing under "A2". -/
theorem c4_counterexample :
    resolveId ((emptyService.register_agent infoA1).register_agent
      infoA2).agents "web-1" = "A1" ∧
    resolveId ((emptyService.register_agent infoA1).register_agent
      infoA2).agents "web-1" ≠ "A2" ∧
    (((emptyService.register_agent infoA1).register_agent
      infoA2).process_metrics mWeb1 0).1.get_metrics "A2" = none :=
  ⟨rfl, by decide, rfl⟩

/-- Claim C4, amended: hostname resolution returns the EARLIEST-registered
matching agent: if the registry, in insertion order, is `pre` followed by
`(aid, a)` and then anything, where no entry of `pre` matches the hostname
and `a` does, resolution yields `aid`. -/
theorem c4_resolve_first_registered :
    ∀ (pre post : List (String × AgentInfo)) (aid : String) (a : AgentInfo)
      (h : String),
      (∀ p ∈ pre, p.2.hostname ≠ h) → a.hostname = h →
      resolveId (pre ++ (aid, a) :: post) h = aid := by
  intro pre post aid a h hpre ha
  induction pre with
  | nil => simp [resolveId, List.find?_cons, ha]
  | cons x pre ih =>
    have hx : ¬(x.2.hostname = h) := hpre x (by simp)
    simp only [List.cons_append, resolveId, List.find?_cons,
      show (decide (x.2.hostname = h)) = false by simp [hx]]
    exact ih (fun p hp => hpre p (by simp [hp]))

/-- Witness for the amended C4: with "A0" (hostname "db-1") registered
before "A1" and "A2" after it, hostname "web-1" resolves to "A1". -/
theorem c4_witness :
    (∀ p ∈ [("A0", infoDb)], p.2.hostname ≠ "web-1") ∧
    infoA1.hostname = "web-1" ∧
    resolveId ([("A0", infoDb)] ++ ("A1", infoA1) :: [("A2", infoA2)])
      "web-1" = "A1" :=
  ⟨by decide, rfl,
    c4_resolve_first_registered [("A0", infoDb)] [("A2", infoA2)] "A1"
      infoA1 "web-1" (by decide) rfl⟩

/-- Claim C8: every derived percentage accessor returns 0 when its
denominator is 0 and `used / total * 100` otherwise. In this exact-rational
embedding of the accessors (metrics.py lines 36-48, 70-75, 114-119) the
accessors are total functions into `ℚ`, so they never raise and no NaN
value exists to be returned. -/
theorem c8_percent_accessors :
    ∀ (mm : MemoryMetrics) (dm : DiskMetrics) (gm : GpuMetrics),
      (mm.total = 0 → mm.usage_percent = 0) ∧
      (mm.total ≠ 0 →
        mm.usage_percent = (mm.used : ℚ) / (mm.total : ℚ) * 100) ∧
      (mm.swap_total = 0 → mm.swap_usage_percent = 0) ∧
      (mm.swap_total ≠ 0 →
        mm.swap_usage_percent = (mm.swap_used : ℚ) / (mm.swap_total : ℚ) * 100) ∧
      (dm.total = 0 → dm.usage_percent = 0) ∧
      (dm.total ≠ 0 →
        dm.usage_percent = (dm.used : ℚ) / (dm.total : ℚ) * 100) ∧
      (gm.memory_total = 0 → gm.memory_usage_percent = 0) ∧
      (gm.memory_total ≠ 0 →
        gm.memory_usage_percent = (gm.memory_used : ℚ) / (gm.memory_total : ℚ) * 100) := by
  intro mm dm gm
  refine ⟨fun h => ?_, fun h => ?_, fun h => ?_, fun h => ?_,
    fun h => ?_, fun h => ?_, fun h => ?_, fun h => ?_⟩
  · simp [MemoryMetrics.usage_percent, h]
  · simp [MemoryMetrics.usage_percent, h]
  · simp [MemoryMetrics.swap_usage_percent, h]
  · simp [MemoryMetrics.swap_usage_percent, h]
  · simp [DiskMetrics.usage_percent, h]
  · simp [DiskMetrics.usage_percent, h]
  · simp [GpuMetrics.memory_usage_percent, h]
  · simp [GpuMetrics.memory_usage_percent, h]

/-- Memory record for the C8 witness: zero total, nonzero swap total. -/
def mm8 : MemoryMetrics := { total := 0, used := 7, swap_total := 2, swap_used := 1 }

/-- Disk record for the C8 witness. -/
def dm8 : DiskMetrics := { total := 4, used := 1 }

/-- GPU record for the C8 witness: zero memory total. -/
def gm8 : GpuMetrics := { memory_total := 0, memory_used := 3 }

/-- Witness for C8: both the zero-denominator and the nonzero-denominator
branches, evaluated at concrete records. -/
theorem c8_witness :
    mm8.total = 0 ∧ mm8.usage_percent = 0 ∧
    mm8.swap_total ≠ 0 ∧ mm8.swap_usage_percent = 50 ∧
    dm8.total ≠ 0 ∧ dm8.usage_percent = 25 ∧
    gm8.memory_total = 0 ∧ gm8.memory_usage_percent = 0 := by
  refine ⟨rfl, (c8_percent_accessors mm8 dm8 gm8).1 rfl, by decide, ?_,
    by decide, ?_, rfl,
    (c8_percent_accessors mm8 dm8 gm8).2.2.2.2.2.2.1 rfl⟩
  · rw [(c8_percent_accessors mm8 dm8 gm8).2.2.2.1 (by decide)]
    norm_num [mm8]
  · rw [(c8_percent_accessors mm8 dm8 gm8).2.2.2.2.2.1 (by decide)]
    norm_num [dm8]

/-- Claim C9: the cluster summary's `agent_count` is the size of the
registry (not of the cache), its averages are simple arithmetic means of
`cpu_usage` / `memory_usage` over the cached entries, and both averages are
0 when the cache is empty. -/
theorem c9_cluster_summary :
    ∀ s : MetricsService,
      (get_summary s).agent_count = s.agents.length ∧
      (s.latest_metrics = [] →
        (get_summary s).avg_cpu_usage = 0 ∧
        (get_summary s).avg_memory_usage = 0) ∧
      (s.latest_metrics ≠ [] →
        (get_summary s).avg_cpu_usage =
          (s.latest_metrics.map (fun p => p.2.cpu_usage)).sum /
            s.latest_metrics.length ∧
        (get_summary s).avg_memory_usage =
          (s.latest_metrics.map (fun p => p.2.memory_usage)).sum /
            s.latest_metrics.length) := by
  intro s
  refine ⟨rfl, fun h => ?_, fun h => ?_⟩
  · constructor <;>
      simp [get_summary, MetricsService.get_average_cpu,
        MetricsService.get_average_memory, h]
  · constructor <;>
      simp [get_summary, MetricsService.get_average_cpu,
        MetricsService.get_average_memory, h]

/-- Service state for the C9 witness: one registered-but-silent agent and an
empty cache. -/
def s9a : MetricsService := { agents := [("A1", infoA1)], latest_metrics := [] }

/-- First cached entry of the C9 witness state. -/
def e9a : AgentMetrics :=
  { hostname := "web-1", cpu_usage := 10, memory_usage := 30,
    memory_total := 100, memory_used := 30, timestamp := 1 }

/-- Second cached entry of the C9 witness state. -/
def e9b : AgentMetrics :=
  { hostname := "web-9", cpu_usage := 20, memory_usage := 50,
    memory_total := 100, memory_used := 50, timestamp := 2 }

/-- Service state for the C9 witness: one registered agent but two cached
entries (the registry, not the cache, supplies `agent_count`). -/
def s9b : MetricsService :=
  { agents := [("A1", infoA1)]
    latest_metrics := [("A1", e9a), ("web-9", e9b)] }

/-- Witness for C9: with an empty cache the averages are 0 and the count is
the registry size; with two cached entries the averages are the means. -/
theorem c9_witness :
    (get_summary s9a).agent_count = s9a.agents.length ∧
    (get_summary s9a).avg_cpu_usage = 0 ∧
    (get_summary s9b).avg_cpu_usage =
      (s9b.latest_metrics.map (fun p => p.2.cpu_usage)).sum /
        s9b.latest_metrics.length ∧
    (get_summary s9b).avg_cpu_usage = 15 ∧
    (get_summary s9b).agent_count = 1 :=
  ⟨(c9_cluster_summary s9a).1, ((c9_cluster_summary s9a).2.1 rfl).1,
    ((c9_cluster_summary s9b).2.2 (by simp [s9b])).1,
    by norm_num [get_summary, MetricsService.get_average_cpu, s9b, e9a, e9b],
    rfl⟩

/-- Snapshot for the C10 scenario: hostname "web-1", CPU usage 95, memory
1000 total / 950 used. -/
def m10 : Metrics :=
  { hostname := "web-1", cpu := some { usage_percent := 95 },
    memory := some { total := 1000, used := 950 } }

/-- The cached entry the C10 scenario produces. -/
def e10 : AgentMetrics :=
  { hostname := "web-1", cpu_usage := 95, memory_usage := 95,
    memory_total := 1000, memory_used := 950, timestamp := 0 }

/-- The CPU alert of the C10 scenario. -/
def cpuA10 : Alert := { hostname := "web-1", kind := .cpu, value := 95 }

/-- The memory alert of the C10 scenario. -/
def memA10 : Alert := { hostname := "web-1", kind := .memory, value := 95 }

/-- Claim C10: alert evaluation is a stateless function of the freshly
cached entry emitting exactly one alert per breached fixed threshold
(CPU > 90, memory > 90), each alert carrying the hostname, metric kind and
breaching value; and in the concrete scenario — register "A1" with hostname
"web-1", then process a snapshot with cpu.usagePercent 95 and memory
1000/950 — the cache entry for "A1" has cpu_usage 95 and memory_usage 95
and exactly the CPU and memory alerts are emitted. -/
theorem c10_alert_evaluation :
    (∀ e : AgentMetrics,
      (evalAlerts e).length =
        (if e.cpu_usage > 90 then 1 else 0) +
          (if e.memory_usage > 90 then 1 else 0) ∧
      (∀ a ∈ evalAlerts e, a.hostname = e.hostname ∧
        ((a.kind = .cpu ∧ a.value = e.cpu_usage ∧ e.cpu_usage > 90) ∨
         (a.kind = .memory ∧ a.value = e.memory_usage ∧ e.memory_usage > 90)))) ∧
    ((emptyService.register_agent infoA1).process_metrics m10 0).1.get_metrics
      "A1" = some e10 ∧
    ((emptyService.register_agent infoA1).process_metrics m10 0).2 =
      [cpuA10, memA10] := by
  refine ⟨fun e => ⟨?_, ?_⟩, ?_, ?_⟩
  · unfold evalAlerts
    by_cases hc : e.cpu_usage > 90 <;> by_cases hm : e.memory_usage > 90 <;>
      simp [hc, hm]
  · intro a ha
    unfold evalAlerts at ha
    rw [List.mem_append] at ha
    rcases ha with ha | ha
    · by_cases hc : e.cpu_usage > 90
      · rw [if_pos hc] at ha
        simp only [List.mem_singleton] at ha
        subst ha
        exact ⟨rfl, Or.inl ⟨rfl, rfl, hc⟩⟩
      · rw [if_neg hc] at ha
        simp at ha
    · by_cases hm : e.memory_usage > 90
      · rw [if_pos hm] at ha
        simp only [List.mem_singleton] at ha
        subst ha
        exact ⟨rfl, Or.inr ⟨rfl, rfl, hm⟩⟩
      · rw [if_neg hm] at ha
        simp at ha
  · norm_num [MetricsService.register_agent, MetricsService.process_metrics,
      MetricsService.get_metrics, emptyService, dinsert, dlookup, resolveId,
      infoA1, m10, cacheEntry, e10, evalAlerts]
  · norm_num [MetricsService.register_agent, MetricsService.process_metrics,
      emptyService, resolveId, infoA1, m10, cacheEntry, evalAlerts,
      cpuA10, memA10]

/-- Witness for C10: the membership characterization evaluated at the
scenario's CPU alert and entry. -/
theorem c10_witness :
    cpuA10 ∈ evalAlerts e10 ∧
    (cpuA10.hostname = e10.hostname ∧
      ((cpuA10.kind = .cpu ∧ cpuA10.value = e10.cpu_usage ∧ e10.cpu_usage > 90) ∨
       (cpuA10.kind = .memory ∧ cpuA10.value = e10.memory_usage ∧ e10.memory_usage > 90))) :=
  ⟨by norm_num [evalAlerts, e10, cpuA10],
    (c10_alert_evaluation.1 e10).2 cpuA10 (by norm_num [evalAlerts, e10, cpuA10])⟩

/-! Shape conditions on raw records under which `from_dict` cannot raise,
and the values it then computes. -/

/-- Whether an `Except` result is a success (the Python call returned rather
than raised). -/
def isOkB {ε α : Type} : Except ε α → Bool
  | .ok _ => true
  | .error _ => false

/-- Whether a raw value is a dict. -/
def isObjB : JVal → Bool
  | .obj _ => true
  | _ => false

/-- An optional-section value is safe when, if present and truthy, it is a
dict (otherwise `.get` on it raises). -/
def secOk (data : List (String × JVal)) (k : String) : Bool :=
  match jlookup data k with
  | none => true
  | some v => !pyTruthy v || isObjB v

/-- A list-section value is safe when absent or a list of dicts. -/
def listOk (data : List (String × JVal)) (k : String) : Bool :=
  match jlookup data k with
  | none => true
  | some (.arr xs) => xs.all isObjB
  | some _ => false

/-- A raw record is well-shaped when each optional section, if present and
truthy, is a dict, and each list section, if present, is a list of dicts.
Nothing is required of `hostname`, `timestamp` or any scalar leaf. -/
def wellShaped (data : List (String × JVal)) : Bool :=
  secOk data "cpu" && secOk data "memory" && secOk data "system" &&
    listOk data "disks" && listOk data "networks" && listOk data "gpus"

/-- Whether an optional-section container key is present as a non-empty dict
(the condition under which the code constructs the section). -/
def sectionPresent (data : List (String × JVal)) (k : String) : Bool :=
  match jlookup data k with
  | some (.obj fs) => !fs.isEmpty
  | _ => false

/-- The fields of an optional section when it is present as a non-empty
dict; `none` otherwise. -/
def secFields (data : List (String × JVal)) (k : String) :
    Option (List (String × JVal)) :=
  match jlookup data k with
  | some (.obj fs) => if fs.isEmpty then none else some fs
  | _ => none

/-- The raw elements a present list section iterates over (empty when the
key is absent). -/
def rawElems (data : List (String × JVal)) (k : String) : List JVal :=
  match jlookup data k with
  | some (.arr xs) => xs
  | _ => []

/-- The dict elements of a list section. -/
def listFields (data : List (String × JVal)) (k : String) :
    List (List (String × JVal)) :=
  (rawElems data k).filterMap
    (fun v => match v with | .obj fs => some fs | _ => none)

theorem getSection_ok (data : List (String × JVal)) (k : String)
    (h : secOk data k = true) :
    getSection data k = .ok (secFields data k) := by
  unfold getSection secFields
  unfold secOk at h
  cases hl : jlookup data k with
  | none => rfl
  | some v =>
    rw [hl] at h
    cases v with
    | null => rfl
    | bool b => cases b <;> simp_all [pyTruthy, isObjB]
    | num q =>
      simp only [pyTruthy, isObjB, Bool.or_false] at h
      simp [pyTruthy, Bool.not_eq_true', Bool.not_eq_false] at h ⊢
      simp [h]
    | str s =>
      simp only [pyTruthy, isObjB, Bool.or_false] at h
      simp [pyTruthy, Bool.not_eq_true', Bool.not_eq_false] at h ⊢
      simp [h]
    | arr xs =>
      simp only [pyTruthy, isObjB, Bool.or_false] at h
      simp [pyTruthy, Bool.not_eq_true', Bool.not_eq_false] at h ⊢
      simp [h]
    | obj fs =>
      by_cases he : fs.isEmpty = true
      · simp [pyTruthy, he]
      · simp [pyTruthy, he]

theorem getElems_ok (data : List (String × JVal)) (k : String)
    (h : listOk data k = true) :
    getElems data k = .ok (rawElems data k) := by
  unfold getElems rawElems
  unfold listOk at h
  cases hl : jlookup data k with
  | none => rfl
  | some v =>
    rw [hl] at h
    cases v with
    | arr xs => rfl
    | null => simp at h
    | bool b => simp at h
    | num q => simp at h
    | str s => simp at h
    | obj fs => simp at h

theorem mapM_normElem_all_obj {α : Type} (f : List (String × JVal) → α)
    (xs : List JVal) (h : xs.all isObjB = true) :
    xs.mapM (normElem f) =
      .ok ((xs.filterMap
        (fun v => match v with | .obj fs => some fs | _ => none)).map f) := by
  induction xs with
  | nil => rfl
  | cons v vs ih =>
    simp only [List.all_cons, Bool.and_eq_true] at h
    cases v with
    | obj fs =>
      rw [List.mapM_cons, ih h.2]
      simp [normElem, elemObj]
      rfl
    | null => simp [isObjB] at h
    | bool b => simp [isObjB] at h
    | num q => simp [isObjB] at h
    | str s => simp [isObjB] at h
    | arr ys => simp [isObjB] at h

theorem exceptBind_ok {ε α β : Type} (a : α) (f : α → Except ε β) :
    (Except.ok a >>= f : Except ε β) = f a := rfl

theorem rawElems_all_obj (data : List (String × JVal)) (k : String)
    (h : listOk data k = true) : (rawElems data k).all isObjB = true := by
  unfold listOk at h
  unfold rawElems
  cases hl : jlookup data k with
  | none => rfl
  | some v => rw [hl] at h; cases v <;> simp_all

/-- On a well-shaped record `from_dict` succeeds and returns exactly the
record built from per-key lookups with defaults: sections present iff their
key holds a non-empty dict, list sections the normalization of their
elements, scalars defaulted on absence. -/
theorem from_dict_wellShaped (data : List (String × JVal))
    (h : wellShaped data = true) :
    Metrics.from_dict data = .ok
      { timestamp := getIntD data "timestamp" 0
        hostname := getStrD data "hostname" ""
        cpu := (secFields data "cpu").map normalizeCpu
        memory := (secFields data "memory").map normalizeMemory
        disks := (listFields data "disks").map normalizeDisk
        networks := (listFields data "networks").map normalizeNetwork
        gpus := (listFields data "gpus").map normalizeGpu
        system := (secFields data "system").map normalizeSystem
        load_average := getNumListD data "loadAverage" } := by
  have hs : secOk data "cpu" = true ∧ secOk data "memory" = true ∧
      secOk data "system" = true ∧ listOk data "disks" = true ∧
      listOk data "networks" = true ∧ listOk data "gpus" = true := by
    simpa [wellShaped, Bool.and_eq_true, and_assoc] using h
  obtain ⟨h1, h2, h3, h4, h5, h6⟩ := hs
  simp only [Metrics.from_dict, getSection_ok _ _ h1, getSection_ok _ _ h2,
    getSection_ok _ _ h3, getElems_ok _ _ h4, getElems_ok _ _ h5,
    getElems_ok _ _ h6,
    mapM_normElem_all_obj normalizeDisk _ (rawElems_all_obj _ _ h4),
    mapM_normElem_all_obj normalizeNetwork _ (rawElems_all_obj _ _ h5),
    mapM_normElem_all_obj normalizeGpu _ (rawElems_all_obj _ _ h6),
    exceptBind_ok, listFields]

theorem exceptBind_err {ε α β : Type} (e : ε) (f : α → Except ε β) :
    (Except.error e >>= f : Except ε β) = .error e := rfl

theorem getStrD_none (o : List (String × JVal)) (k : String) (d : String)
    (h : (jlookup o k).isNone = true) : getStrD o k d = d := by
  unfold getStrD
  rw [Option.isNone_iff_eq_none.mp h]

theorem getIntD_none (o : List (String × JVal)) (k : String) (d : ℤ)
    (h : (jlookup o k).isNone = true) : getIntD o k d = d := by
  unfold getIntD
  rw [Option.isNone_iff_eq_none.mp h]

theorem getNumD_none (o : List (String × JVal)) (k : String) (d : ℚ)
    (h : (jlookup o k).isNone = true) : getNumD o k d = d := by
  unfold getNumD
  rw [Option.isNone_iff_eq_none.mp h]

theorem getBoolD_none (o : List (String × JVal)) (k : String) (d : Bool)
    (h : (jlookup o k).isNone = true) : getBoolD o k d = d := by
  unfold getBoolD
  rw [Option.isNone_iff_eq_none.mp h]

theorem getNumOpt_none (o : List (String × JVal)) (k : String)
    (h : (jlookup o k).isNone = true) : getNumOpt o k = none := by
  unfold getNumOpt
  rw [Option.isNone_iff_eq_none.mp h]

theorem getNumListD_none (o : List (String × JVal)) (k : String)
    (h : (jlookup o k).isNone = true) : getNumListD o k = [] := by
  unfold getNumListD
  rw [Option.isNone_iff_eq_none.mp h]

theorem getStrListD_none (o : List (String × JVal)) (k : String)
    (h : (jlookup o k).isNone = true) : getStrListD o k = [] := by
  unfold getStrListD
  rw [Option.isNone_iff_eq_none.mp h]

/-- Claim C5, as stated, is false: normalizing the empty record — hostname
and timestamp both absent — produces a snapshot (the all-defaults record)
instead of failing. -/
theorem c5_counterexample :
    Metrics.from_dict [] = .ok ({} : Metrics) := rfl

/-- Claim C5, amended: normalization NEVER fails because the hostname or
timestamp fields are absent (or of the wrong kind — nothing about them is
checked): on every well-shaped record it succeeds, substituting the
defaults "" and 0 for the absent fields. Failure can only come from a
malformed section container or list element. -/
theorem c5_missing_required_fields_default :
    ∀ data : List (String × JVal), wellShaped data = true →
      ∃ m : Metrics, Metrics.from_dict data = .ok m ∧
        ((jlookup data "hostname").isNone = true → m.hostname = "") ∧
        ((jlookup data "timestamp").isNone = true → m.timestamp = 0) := by
  intro data h
  exact ⟨_, from_dict_wellShaped data h,
    fun hn => getStrD_none data "hostname" "" hn,
    fun hn => getIntD_none data "timestamp" 0 hn⟩

/-- Raw record for the C5 witness: a CPU section but no hostname and no
timestamp. -/
def c5data : List (String × JVal) :=
  [("cpu", JVal.obj [("usagePercent", JVal.num 5)])]

/-- Witness for the amended C5 at a concrete record lacking hostname and
timestamp. -/
theorem c5_witness :
    wellShaped c5data = true ∧
    (∃ m : Metrics, Metrics.from_dict c5data = .ok m ∧
      ((jlookup c5data "hostname").isNone = true → m.hostname = "") ∧
      ((jlookup c5data "timestamp").isNone = true → m.timestamp = 0)) :=
  ⟨rfl, c5_missing_required_fields_default c5data rfl⟩

theorem normElem_err {α : Type} (f : List (String × JVal) → α) (v : JVal)
    (h : isObjB v = false) : normElem f v = .error "AttributeError" := by
  cases v <;> first | rfl | simp [isObjB] at h

theorem mapM_normElem_err {α : Type} (f : List (String × JVal) → α)
    (xs : List JVal) (v : JVal) (hv : v ∈ xs) (hbad : isObjB v = false) :
    ∃ e, xs.mapM (normElem f) = Except.error e := by
  induction xs with
  | nil => cases hv
  | cons w ws ih =>
    rcases List.mem_cons.mp hv with rfl | hv2
    · exact ⟨"AttributeError",
        by rw [List.mapM_cons, normElem_err f v hbad]; rfl⟩
    · cases hw : normElem f w with
      | error e => exact ⟨e, by rw [List.mapM_cons, hw]; rfl⟩
      | ok a =>
        obtain ⟨e, he⟩ := ih hv2
        exact ⟨e, by rw [List.mapM_cons, hw, exceptBind_ok, he]; rfl⟩

/-- Elements of the C6 list: one well-formed disk dict followed by a
malformed (non-dict) element. -/
def c6elems : List JVal :=
  [JVal.obj [("mountPoint", JVal.str "/")], JVal.num 5]

/-- Raw record for C6: valid hostname and timestamp, but a malformed element
inside the disks list. -/
def c6data : List (String × JVal) :=
  [("hostname", JVal.str "web-1"), ("timestamp", JVal.num 1),
   ("disks", JVal.arr c6elems)]

/-- Claim C6, as stated, is false: on a record whose disks list holds one
well-formed element and one malformed element, `from_dict` does not drop
the bad element and keep the rest — the whole call fails (the Python code
raises `AttributeError`), producing no snapshot and no error count. -/
theorem c6_counterexample :
    isOkB (Metrics.from_dict c6data) = false := rfl

/-- Claim C6, amended: a malformed (non-dict) element anywhere in a present
Disk, Network, or GPU list aborts the entire normalization — `from_dict`
fails outright; nothing is dropped, no per-element error count exists in
the code. -/
theorem c6_malformed_element_aborts :
    ∀ (data : List (String × JVal)) (xs : List JVal) (v : JVal),
      v ∈ xs → isObjB v = false →
      (jlookup data "disks" = some (.arr xs) →
        isOkB (Metrics.from_dict data) = false) ∧
      (jlookup data "networks" = some (.arr xs) →
        isOkB (Metrics.from_dict data) = false) ∧
      (jlookup data "gpus" = some (.arr xs) →
        isOkB (Metrics.from_dict data) = false) := by
  intro data xs v hv hbad
  refine ⟨fun hl => ?_, fun hl => ?_, fun hl => ?_⟩
  · obtain ⟨e, he⟩ := mapM_normElem_err normalizeDisk xs v hv hbad
    have hge : getElems data "disks" = .ok xs := by unfold getElems; rw [hl]
    unfold Metrics.from_dict
    cases h1 : getSection data "cpu" with
    | error e1 => rfl
    | ok c1 =>
      cases h2 : getSection data "memory" with
      | error e2 => rfl
      | ok c2 =>
        rw [hge]
        simp only [exceptBind_ok]
        rw [he]
        rfl
  · obtain ⟨e, he⟩ := mapM_normElem_err normalizeNetwork xs v hv hbad
    have hge : getElems data "networks" = .ok xs := by unfold getElems; rw [hl]
    unfold Metrics.from_dict
    cases h1 : getSection data "cpu" with
    | error e1 => rfl
    | ok c1 =>
      cases h2 : getSection data "memory" with
      | error e2 => rfl
      | ok c2 =>
        cases h3 : getElems data "disks" with
        | error e3 => rfl
        | ok ds =>
          simp only [exceptBind_ok]
          cases h4 : ds.mapM (normElem normalizeDisk) with
          | error e4 => rfl
          | ok ds2 =>
            rw [hge]
            simp only [exceptBind_ok]
            rw [he]
            rfl
  · obtain ⟨e, he⟩ := mapM_normElem_err normalizeGpu xs v hv hbad
    have hge : getElems data "gpus" = .ok xs := by unfold getElems; rw [hl]
    unfold Metrics.from_dict
    cases h1 : getSection data "cpu" with
    | error e1 => rfl
    | ok c1 =>
      cases h2 : getSection data "memory" with
      | error e2 => rfl
      | ok c2 =>
        cases h3 : getElems data "disks" with
        | error e3 => rfl
        | ok ds =>
          simp only [exceptBind_ok]
          cases h4 : ds.mapM (normElem normalizeDisk) with
          | error e4 => rfl
          | ok ds2 =>
            simp only [exceptBind_ok]
            cases h5 : getElems data "networks" with
            | error e5 => rfl
            | ok ns =>
              simp only [exceptBind_ok]
              cases h6 : ns.mapM (normElem normalizeNetwork) with
              | error e6 => rfl
              | ok ns2 =>
                rw [hge]
                simp only [exceptBind_ok]
                rw [he]
                rfl

/-- Witness for the amended C6 at the concrete record of the
counterexample. -/
theorem c6_witness :
    JVal.num 5 ∈ c6elems ∧ isObjB (JVal.num 5) = false ∧
    jlookup c6data "disks" = some (JVal.arr c6elems) ∧
    isOkB (Metrics.from_dict c6data) = false :=
  ⟨List.Mem.tail _ (List.Mem.head _), rfl, rfl,
    (c6_malformed_element_aborts c6data c6elems (JVal.num 5)
      (List.Mem.tail _ (List.Mem.head _)) rfl).1 rfl⟩

theorem isSome_map {α β : Type} (f : α → β) (o : Option α) :
    (o.map f).isSome = o.isSome := by
  cases o <;> rfl

theorem secFields_isSome (data : List (String × JVal)) (k : String) :
    (secFields data k).isSome = sectionPresent data k := by
  unfold secFields sectionPresent
  cases jlookup data k with
  | none => rfl
  | some v =>
    cases v with
    | obj fs =>
      by_cases he : fs.isEmpty = true
      · simp [he]
      · simp [he]
    | null => rfl
    | bool b => rfl
    | num q => rfl
    | str s => rfl
    | arr xs => rfl

theorem listFields_nil (data : List (String × JVal)) (k : String)
    (h : (jlookup data k).isNone = true) : listFields data k = [] := by
  unfold listFields rawElems
  rw [Option.isNone_iff_eq_none.mp h]
  rfl

theorem secFields_obj (data : List (String × JVal)) (k : String)
    (fs : List (String × JVal)) (h1 : jlookup data k = some (.obj fs))
    (h2 : fs.isEmpty = false) : secFields data k = some fs := by
  simp [secFields, h1, h2]

/-- Claim C7: on every well-shaped raw record, normalization succeeds with a
section present exactly when its container key holds a non-empty dict
(never a zero-valued stand-in), absent list keys yielding empty lists, a
present non-empty section dict normalized field-by-field; and every scalar
field of every section defaults (to 0, the empty string, the empty list,
`none`, or `false`, per its declaration) when its wire key is absent. -/
theorem c7_optional_sections :
    (∀ data : List (String × JVal), wellShaped data = true →
      ∃ m : Metrics, Metrics.from_dict data = .ok m ∧
        m.cpu.isSome = sectionPresent data "cpu" ∧
        m.memory.isSome = sectionPresent data "memory" ∧
        m.system.isSome = sectionPresent data "system" ∧
        ((jlookup data "disks").isNone = true → m.disks = []) ∧
        ((jlookup data "networks").isNone = true → m.networks = []) ∧
        ((jlookup data "gpus").isNone = true → m.gpus = []) ∧
        (∀ fs, jlookup data "cpu" = some (.obj fs) → fs.isEmpty = false →
          m.cpu = some (normalizeCpu fs)) ∧
        (∀ fs, jlookup data "memory" = some (.obj fs) → fs.isEmpty = false →
          m.memory = some (normalizeMemory fs)) ∧
        (∀ fs, jlookup data "system" = some (.obj fs) → fs.isEmpty = false →
          m.system = some (normalizeSystem fs))) ∧
    (∀ o : List (String × JVal),
        ((jlookup o "usagePercent").isNone = true → (normalizeCpu o).usage_percent = 0) ∧
        ((jlookup o "coreCount").isNone = true → (normalizeCpu o).core_count = 0) ∧
        ((jlookup o "perCoreUsage").isNone = true → (normalizeCpu o).per_core_usage = []) ∧
        ((jlookup o "model").isNone = true → (normalizeCpu o).model = "") ∧
        ((jlookup o "vendor").isNone = true → (normalizeCpu o).vendor = "") ∧
        ((jlookup o "frequencyMhz").isNone = true → (normalizeCpu o).frequency_mhz = 0) ∧
        ((jlookup o "maxFrequencyMhz").isNone = true → (normalizeCpu o).max_frequency_mhz = 0) ∧
        ((jlookup o "temperatureCelsius").isNone = true → (normalizeCpu o).temperature_celsius = none) ∧
        ((jlookup o "architecture").isNone = true → (normalizeCpu o).architecture = "") ∧
        ((jlookup o "total").isNone = true → (normalizeMemory o).total = 0) ∧
        ((jlookup o "used").isNone = true → (normalizeMemory o).used = 0) ∧
        ((jlookup o "available").isNone = true → (normalizeMemory o).available = 0) ∧
        ((jlookup o "swapTotal").isNone = true → (normalizeMemory o).swap_total = 0) ∧
        ((jlookup o "swapUsed").isNone = true → (normalizeMemory o).swap_used = 0) ∧
        ((jlookup o "cached").isNone = true → (normalizeMemory o).cached = 0) ∧
        ((jlookup o "buffers").isNone = true → (normalizeMemory o).buffers = 0) ∧
        ((jlookup o "memoryType").isNone = true → (normalizeMemory o).memory_type = "") ∧
        ((jlookup o "speedMhz").isNone = true → (normalizeMemory o).speed_mhz = 0) ∧
        ((jlookup o "mountPoint").isNone = true → (normalizeDisk o).mount_point = "") ∧
        ((jlookup o "device").isNone = true → (normalizeDisk o).device = "") ∧
        ((jlookup o "fsType").isNone = true → (normalizeDisk o).fs_type = "") ∧
        ((jlookup o "total").isNone = true → (normalizeDisk o).total = 0) ∧
        ((jlookup o "used").isNone = true → (normalizeDisk o).used = 0) ∧
        ((jlookup o "available").isNone = true → (normalizeDisk o).available = 0) ∧
        ((jlookup o "readBytesPerSec").isNone = true → (normalizeDisk o).read_bytes_per_sec = 0) ∧
        ((jlookup o "writeBytesPerSec").isNone = true → (normalizeDisk o).write_bytes_per_sec = 0) ∧
        ((jlookup o "readIops").isNone = true → (normalizeDisk o).read_iops = 0) ∧
        ((jlookup o "writeIops").isNone = true → (normalizeDisk o).write_iops = 0) ∧
        ((jlookup o "model").isNone = true → (normalizeDisk o).model = "") ∧
        ((jlookup o "serial").isNone = true → (normalizeDisk o).serial = "") ∧
        ((jlookup o "diskType").isNone = true → (normalizeDisk o).disk_type = "") ∧
        ((jlookup o "temperatureCelsius").isNone = true → (normalizeDisk o).temperature_celsius = none) ∧
        ((jlookup o "healthStatus").isNone = true → (normalizeDisk o).health_status = "") ∧
        ((jlookup o "interface").isNone = true → (normalizeNetwork o).interface = "") ∧
        ((jlookup o "rxBytesPerSec").isNone = true → (normalizeNetwork o).rx_bytes_per_sec = 0) ∧
        ((jlookup o "txBytesPerSec").isNone = true → (normalizeNetwork o).tx_bytes_per_sec = 0) ∧
        ((jlookup o "rxPacketsPerSec").isNone = true → (normalizeNetwork o).rx_packets_per_sec = 0) ∧
        ((jlookup o "txPacketsPerSec").isNone = true → (normalizeNetwork o).tx_packets_per_sec = 0) ∧
        ((jlookup o "isUp").isNone = true → (normalizeNetwork o).is_up = false) ∧
        ((jlookup o "macAddress").isNone = true → (normalizeNetwork o).mac_address = "") ∧
        ((jlookup o "ipAddresses").isNone = true → (normalizeNetwork o).ip_addresses = []) ∧
        ((jlookup o "linkSpeedMbps").isNone = true → (normalizeNetwork o).link_speed_mbps = 0) ∧
        ((jlookup o "interfaceType").isNone = true → (normalizeNetwork o).interface_type = "") ∧
        ((jlookup o "index").isNone = true → (normalizeGpu o).index = 0) ∧
        ((jlookup o "name").isNone = true → (normalizeGpu o).name = "") ∧
        ((jlookup o "vendor").isNone = true → (normalizeGpu o).vendor = "") ∧
        ((jlookup o "usagePercent").isNone = true → (normalizeGpu o).usage_percent = 0) ∧
        ((jlookup o "memoryTotal").isNone = true → (normalizeGpu o).memory_total = 0) ∧
        ((jlookup o "memoryUsed").isNone = true → (normalizeGpu o).memory_used = 0) ∧
        ((jlookup o "temperatureCelsius").isNone = true → (normalizeGpu o).temperature_celsius = 0) ∧
        ((jlookup o "fanSpeedPercent").isNone = true → (normalizeGpu o).fan_speed_percent = 0) ∧
        ((jlookup o "powerDrawWatts").isNone = true → (normalizeGpu o).power_draw_watts = 0) ∧
        ((jlookup o "powerLimitWatts").isNone = true → (normalizeGpu o).power_limit_watts = 0) ∧
        ((jlookup o "clockCoreMhz").isNone = true → (normalizeGpu o).clock_core_mhz = 0) ∧
        ((jlookup o "clockMemoryMhz").isNone = true → (normalizeGpu o).clock_memory_mhz = 0) ∧
        ((jlookup o "driverVersion").isNone = true → (normalizeGpu o).driver_version = "") ∧
        ((jlookup o "pcieGen").isNone = true → (normalizeGpu o).pcie_gen = 0) ∧
        ((jlookup o "pcieWidth").isNone = true → (normalizeGpu o).pcie_width = 0) ∧
        ((jlookup o "encoderUsagePercent").isNone = true → (normalizeGpu o).encoder_usage_percent = 0) ∧
        ((jlookup o "decoderUsagePercent").isNone = true → (normalizeGpu o).decoder_usage_percent = 0) ∧
        ((jlookup o "osName").isNone = true → (normalizeSystem o).os_name = "") ∧
        ((jlookup o "osVersion").isNone = true → (normalizeSystem o).os_version = "") ∧
        ((jlookup o "kernelVersion").isNone = true → (normalizeSystem o).kernel_version = "") ∧
        ((jlookup o "hostname").isNone = true → (normalizeSystem o).hostname = "") ∧
        ((jlookup o "bootTime").isNone = true → (normalizeSystem o).boot_time = 0) ∧
        ((jlookup o "uptimeSeconds").isNone = true → (normalizeSystem o).uptime_seconds = 0) ∧
        ((jlookup o "motherboardModel").isNone = true → (normalizeSystem o).motherboard_model = "") ∧
        ((jlookup o "motherboardVendor").isNone = true → (normalizeSystem o).motherboard_vendor = "") ∧
        ((jlookup o "biosVersion").isNone = true → (normalizeSystem o).bios_version = "")) := by
  constructor
  · intro data h
    refine ⟨_, from_dict_wellShaped data h, ?_, ?_, ?_, fun hn => ?_,
      fun hn => ?_, fun hn => ?_, fun fs h1 h2 => ?_, fun fs h1 h2 => ?_,
      fun fs h1 h2 => ?_⟩
    · rw [isSome_map, secFields_isSome]
    · rw [isSome_map, secFields_isSome]
    · rw [isSome_map, secFields_isSome]
    · show (listFields data "disks").map normalizeDisk = []
      rw [listFields_nil data "disks" hn]
      rfl
    · show (listFields data "networks").map normalizeNetwork = []
      rw [listFields_nil data "networks" hn]
      rfl
    · show (listFields data "gpus").map normalizeGpu = []
      rw [listFields_nil data "gpus" hn]
      rfl
    · show (secFields data "cpu").map normalizeCpu = some (normalizeCpu fs)
      rw [secFields_obj data "cpu" fs h1 h2]
      rfl
    · show (secFields data "memory").map normalizeMemory = some (normalizeMemory fs)
      rw [secFields_obj data "memory" fs h1 h2]
      rfl
    · show (secFields data "system").map normalizeSystem = some (normalizeSystem fs)
      rw [secFields_obj data "system" fs h1 h2]
      rfl
  · intro o
    exact ⟨fun h => getNumD_none o "usagePercent" 0 h,
    fun h => getIntD_none o "coreCount" 0 h,
    fun h => getNumListD_none o "perCoreUsage" h,
    fun h => getStrD_none o "model" "" h,
    fun h => getStrD_none o "vendor" "" h,
    fun h => getNumD_none o "frequencyMhz" 0 h,
    fun h => getNumD_none o "maxFrequencyMhz" 0 h,
    fun h => getNumOpt_none o "temperatureCelsius" h,
    fun h => getStrD_none o "architecture" "" h,
    fun h => getIntD_none o "total" 0 h,
    fun h => getIntD_none o "used" 0 h,
    fun h => getIntD_none o "available" 0 h,
    fun h => getIntD_none o "swapTotal" 0 h,
    fun h => getIntD_none o "swapUsed" 0 h,
    fun h => getIntD_none o "cached" 0 h,
    fun h => getIntD_none o "buffers" 0 h,
    fun h => getStrD_none o "memoryType" "" h,
    fun h => getIntD_none o "speedMhz" 0 h,
    fun h => getStrD_none o "mountPoint" "" h,
    fun h => getStrD_none o "device" "" h,
    fun h => getStrD_none o "fsType" "" h,
    fun h => getIntD_none o "total" 0 h,
    fun h => getIntD_none o "used" 0 h,
    fun h => getIntD_none o "available" 0 h,
    fun h => getIntD_none o "readBytesPerSec" 0 h,
    fun h => getIntD_none o "writeBytesPerSec" 0 h,
    fun h => getIntD_none o "readIops" 0 h,
    fun h => getIntD_none o "writeIops" 0 h,
    fun h => getStrD_none o "model" "" h,
    fun h => getStrD_none o "serial" "" h,
    fun h => getStrD_none o "diskType" "" h,
    fun h => getNumOpt_none o "temperatureCelsius" h,
    fun h => getStrD_none o "healthStatus" "" h,
    fun h => getStrD_none o "interface" "" h,
    fun h => getIntD_none o "rxBytesPerSec" 0 h,
    fun h => getIntD_none o "txBytesPerSec" 0 h,
    fun h => getIntD_none o "rxPacketsPerSec" 0 h,
    fun h => getIntD_none o "txPacketsPerSec" 0 h,
    fun h => getBoolD_none o "isUp" false h,
    fun h => getStrD_none o "macAddress" "" h,
    fun h => getStrListD_none o "ipAddresses" h,
    fun h => getIntD_none o "linkSpeedMbps" 0 h,
    fun h => getStrD_none o "interfaceType" "" h,
    fun h => getIntD_none o "index" 0 h,
    fun h => getStrD_none o "name" "" h,
    fun h => getStrD_none o "vendor" "" h,
    fun h => getNumD_none o "usagePercent" 0 h,
    fun h => getIntD_none o "memoryTotal" 0 h,
    fun h => getIntD_none o "memoryUsed" 0 h,
    fun h => getNumD_none o "temperatureCelsius" 0 h,
    fun h => getNumD_none o "fanSpeedPercent" 0 h,
    fun h => getNumD_none o "powerDrawWatts" 0 h,
    fun h => getNumD_none o "powerLimitWatts" 0 h,
    fun h => getIntD_none o "clockCoreMhz" 0 h,
    fun h => getIntD_none o "clockMemoryMhz" 0 h,
    fun h => getStrD_none o "driverVersion" "" h,
    fun h => getIntD_none o "pcieGen" 0 h,
    fun h => getIntD_none o "pcieWidth" 0 h,
    fun h => getNumD_none o "encoderUsagePercent" 0 h,
    fun h => getNumD_none o "decoderUsagePercent" 0 h,
    fun h => getStrD_none o "osName" "" h,
    fun h => getStrD_none o "osVersion" "" h,
    fun h => getStrD_none o "kernelVersion" "" h,
    fun h => getStrD_none o "hostname" "" h,
    fun h => getIntD_none o "bootTime" 0 h,
    fun h => getIntD_none o "uptimeSeconds" 0 h,
    fun h => getStrD_none o "motherboardModel" "" h,
    fun h => getStrD_none o "motherboardVendor" "" h,
    fun h => getStrD_none o "biosVersion" "" h⟩

/-- Object for the C7 witness: a CPU section dict carrying only a model
name, every other wire key absent. -/
def c7o : List (String × JVal) := [("model", JVal.str "X")]

/-- Witness for C7: the absent usagePercent key defaults to 0 on the
concrete object `c7o`. -/
theorem c7_witness :
    (jlookup c7o "usagePercent").isNone = true ∧
    (normalizeCpu c7o).usage_percent = 0 :=
  ⟨rfl, (c7_optional_sections.2 c7o).1 rfl⟩
